import Mathlib

/-!
Shallow embedding of the cayley-rust path-expression compiler
(`src/path.rs`, `src/selector.rs`) and of its execution bridge
(`src/graph.rs`, `src/errors.rs`), together with theorems about
anchor rendering, morphism declaration hoisting, expectation
mapping, finalization gating and response decoding.

Modelling conventions: Rust `String` values are Lean `String`;
`Vec<T>` is `List T`; `Vec<u8>` (raw response bytes) is `List Nat`;
the `names.connect(sep)` call is `String.intercalate sep names`;
`format!` calls are written as explicit concatenations; fallible
operations return `Option` or `Except`.  The Rust struct field
`prefix` is a Lean keyword, so it is spelled `pfix` throughout;
likewise `parse_prefix` is spelled `parse_pfix`.  The network
transport, the UTF-8 decoder and the JSON tokenizer are external
collaborators of the repository and are passed in as function
parameters at the boundary the source gives them.
-/

namespace Cayley

/-- `NodeSelector` from `src/selector.rs`. -/
inductive NodeSelector where
  | AnyNode : NodeSelector
  | Node (name : String) : NodeSelector
  | Nodes (names : List String) : NodeSelector
deriving DecidableEq

/-- `TagSelector` from `src/selector.rs`. -/
inductive TagSelector where
  | AnyTag : TagSelector
  | Tag (name : String) : TagSelector
  | Tags (names : List String) : TagSelector
deriving DecidableEq

/-- `Expectation` from `src/path.rs` (lines 248-255). -/
inductive Expectation where
  | Unknown : Expectation
  | SingleNode : Expectation
  | NodeSequence : Expectation
  | NameSequence : Expectation
  | TagSequence : Expectation
  | SingleTag : Expectation
deriving DecidableEq

/-- `Final` from `src/path.rs` (lines 234-244); the Rust `int` limit is `Int`. -/
inductive Final where
  | Undefined : Final
  | All : Final
  | GetLimit (n : Int) : Final
  | ToArray : Final
  | ToValue : Final
  | TagArray : Final
  | TagValue : Final
deriving DecidableEq

/-- `CompiledPath` from `src/path.rs`: a compiled navigational fragment. -/
structure CompiledPath where
  pfix : String
  value : String
deriving DecidableEq

/-- `CompiledRoute` from `src/path.rs`: a compiled anchored, non-finalized path. -/
structure CompiledRoute where
  pfix : String
  value : String
deriving DecidableEq

/-- `CompiledQuery` from `src/path.rs`: a compiled query with its expectation. -/
structure CompiledQuery where
  pfix : String
  value : String
  expectation : Expectation
deriving DecidableEq

/-- `CompiledReuse` from `src/path.rs`: a compiled named (morphism) path. -/
structure CompiledReuse where
  pfix : String
  name : String
  value : String
deriving DecidableEq

/-- `PredicateSelector` from `src/selector.rs`; `src/path.rs` imports the
`Route` variant under the alias `FromRoute`, and it carries a compiled route. -/
inductive PredicateSelector where
  | AnyPredicate : PredicateSelector
  | Predicate (name : String) : PredicateSelector
  | Predicates (names : List String) : PredicateSelector
  | FromRoute (route : CompiledRoute) : PredicateSelector
deriving DecidableEq

/-- `Traversal` from `src/path.rs` (lines 205-231). -/
inductive Traversal where
  | Out (predicates : PredicateSelector) (tags : TagSelector) : Traversal
  | OutP (predicates : PredicateSelector) : Traversal
  | OutT (tags : TagSelector) : Traversal
  | In (predicates : PredicateSelector) (tags : TagSelector) : Traversal
  | InP (predicates : PredicateSelector) : Traversal
  | InT (tags : TagSelector) : Traversal
  | Both (predicates : PredicateSelector) (tags : TagSelector) : Traversal
  | BothP (predicates : PredicateSelector) : Traversal
  | BothT (tags : TagSelector) : Traversal
  | Is (nodes : NodeSelector) : Traversal
  | Has (predicates : PredicateSelector) (nodes : NodeSelector) : Traversal
  | TagWith (tags : TagSelector) : Traversal
  | As (tags : TagSelector) : Traversal
  | Back (tags : TagSelector) : Traversal
  | Save (predicates : PredicateSelector) (tags : TagSelector) : Traversal
  | Intersect (query : CompiledRoute) : Traversal
  | And (query : CompiledRoute) : Traversal
  | Union (query : CompiledRoute) : Traversal
  | Or (query : CompiledRoute) : Traversal
  | Follow (reusable : CompiledReuse) : Traversal
  | FollowR (reusable : CompiledReuse) : Traversal
deriving DecidableEq

/-- The declaration text `parse_prefix` emits for one `Follow`/`FollowR`
splice of a reusable, after the reusable transitive pfix
(`src/path.rs` lines 548-550: `format!("var {name} = {path};", ...)`). -/
def reuse_decl (reusable : CompiledReuse) : String :=
  "var " ++ reusable.name ++ " = " ++ reusable.value ++ ";"

/-- The contribution of a single traversal to the hoisted declaration text,
read off the `match` inside `parse_prefix` (`src/path.rs` lines 545-556). -/
def pfix_of (traversal : Traversal) : String :=
  match traversal with
  | .Follow reusable => reusable.pfix ++ reuse_decl reusable
  | .FollowR reusable => reusable.pfix ++ reuse_decl reusable
  | .Intersect query => query.pfix
  | .And query => query.pfix
  | .Union query => query.pfix
  | .Or query => query.pfix
  | _ => ""

/-- `parse_prefix` from `src/path.rs` (lines 542-559): the loop pushes each
traversal contribution onto an accumulator string, left to right. -/
def parse_pfix (traversals : List Traversal) : String :=
  match traversals with
  | [] => ""
  | traversal :: rest => pfix_of traversal ++ parse_pfix rest

/-- `parse_start` from `src/path.rs` (lines 561-567). -/
def parse_start (start : NodeSelector) : String :=
  match start with
  | .AnyNode => "g.V()"
  | .Node name => "g.V(\"" ++ name ++ "\")"
  | .Nodes names => "g.V(\"" ++ String.intercalate "\",\"" names ++ "\")"

/-- `parse_predicates_and_tags` from `src/path.rs` (lines 629-656); note the
space after the comma in the `FromRoute` pairings, as in the source. -/
def parse_predicates_and_tags (predicates : PredicateSelector) (tags : TagSelector) : String :=
  match predicates, tags with
  | .AnyPredicate, .AnyTag => ""
  | .AnyPredicate, .Tag tag => "null,\"" ++ tag ++ "\""
  | .AnyPredicate, .Tags tags => "null,[\"" ++ String.intercalate "\",\"" tags ++ "\"]"
  | .Predicate predicate, .AnyTag => "\"" ++ predicate ++ "\""
  | .Predicate predicate, .Tag tag => "\"" ++ predicate ++ "\",\"" ++ tag ++ "\""
  | .Predicate predicate, .Tags tags =>
      "\"" ++ predicate ++ "\",[\"" ++ String.intercalate "\",\"" tags ++ "\"]"
  | .Predicates predicates, .AnyTag =>
      "[\"" ++ String.intercalate "\",\"" predicates ++ "\"]"
  | .Predicates predicates, .Tag tag =>
      "[\"" ++ String.intercalate "\",\"" predicates ++ "\"],\"" ++ tag ++ "\""
  | .Predicates predicates, .Tags tags =>
      "[\"" ++ String.intercalate "\",\"" predicates ++ "\"],[\"" ++
        String.intercalate "\",\"" tags ++ "\"]"
  | .FromRoute route, .AnyTag => route.value
  | .FromRoute route, .Tag tag => route.value ++ ", \"" ++ tag ++ "\""
  | .FromRoute route, .Tags tags =>
      route.value ++ ", [\"" ++ String.intercalate "\",\"" tags ++ "\"]"

/-- `parse_predicates_and_nodes` from `src/path.rs` (lines 658-685); the
`FromRoute` pairings here have no space after the comma, as in the source. -/
def parse_predicates_and_nodes (predicates : PredicateSelector) (nodes : NodeSelector) : String :=
  match predicates, nodes with
  | .AnyPredicate, .AnyNode => ""
  | .AnyPredicate, .Node node => "null,\"" ++ node ++ "\""
  | .AnyPredicate, .Nodes nodes => "null,[\"" ++ String.intercalate "\",\"" nodes ++ "\"]"
  | .Predicate predicate, .AnyNode => "\"" ++ predicate ++ "\""
  | .Predicate predicate, .Node node => "\"" ++ predicate ++ "\",\"" ++ node ++ "\""
  | .Predicate predicate, .Nodes nodes =>
      "\"" ++ predicate ++ "\",[\"" ++ String.intercalate "\",\"" nodes ++ "\"]"
  | .Predicates predicates, .AnyNode =>
      "[\"" ++ String.intercalate "\",\"" predicates ++ "\"]"
  | .Predicates predicates, .Node node =>
      "[\"" ++ String.intercalate "\",\"" predicates ++ "\"],\"" ++ node ++ "\""
  | .Predicates predicates, .Nodes nodes =>
      "[\"" ++ String.intercalate "\",\"" predicates ++ "\"],[\"" ++
        String.intercalate "\",\"" nodes ++ "\"]"
  | .FromRoute route, .AnyNode => route.value
  | .FromRoute route, .Node node => route.value ++ ",\"" ++ node ++ "\""
  | .FromRoute route, .Nodes nodes =>
      route.value ++ ",[\"" ++ String.intercalate "\",\"" nodes ++ "\"]"

/-- The wire token one traversal contributes to the body, read off the big
`match` inside `parse_traversals` (`src/path.rs` lines 569-614). -/
def traversal_token (traversal : Traversal) : String :=
  match traversal with
  | .Out predicates tags => ".Out(" ++ parse_predicates_and_tags predicates tags ++ ")"
  | .OutP predicates => ".Out(" ++ parse_predicates_and_tags predicates .AnyTag ++ ")"
  | .OutT tags => ".Out(" ++ parse_predicates_and_tags .AnyPredicate tags ++ ")"
  | .In predicates tags => ".In(" ++ parse_predicates_and_tags predicates tags ++ ")"
  | .InP predicates => ".In(" ++ parse_predicates_and_tags predicates .AnyTag ++ ")"
  | .InT tags => ".In(" ++ parse_predicates_and_tags .AnyPredicate tags ++ ")"
  | .Both predicates tags => ".Both(" ++ parse_predicates_and_tags predicates tags ++ ")"
  | .BothP predicates => ".Both(" ++ parse_predicates_and_tags predicates .AnyTag ++ ")"
  | .BothT tags => ".Both(" ++ parse_predicates_and_tags .AnyPredicate tags ++ ")"
  | .Is .AnyNode => ".Is()"
  | .Is (.Node name) => ".Is(\"" ++ name ++ "\")"
  | .Is (.Nodes names) => ".Is(\"" ++ String.intercalate "\",\"" names ++ "\")"
  | .Has predicates nodes => ".Has(" ++ parse_predicates_and_nodes predicates nodes ++ ")"
  | .TagWith .AnyTag => ".As()"
  | .TagWith (.Tag name) => ".As(\"" ++ name ++ "\")"
  | .TagWith (.Tags names) => ".As(\"" ++ String.intercalate "\",\"" names ++ "\")"
  | .As .AnyTag => ".As()"
  | .As (.Tag name) => ".As(\"" ++ name ++ "\")"
  | .As (.Tags names) => ".As(\"" ++ String.intercalate "\",\"" names ++ "\")"
  | .Back .AnyTag => ".Back()"
  | .Back (.Tag name) => ".Back(\"" ++ name ++ "\")"
  | .Back (.Tags names) => ".Back(\"" ++ String.intercalate "\",\"" names ++ "\")"
  | .Save predicates tags => ".Save(" ++ parse_predicates_and_tags predicates tags ++ ")"
  | .Intersect query => ".And(" ++ query.value ++ ")"
  | .And query => ".And(" ++ query.value ++ ")"
  | .Union query => ".Or(" ++ query.value ++ ")"
  | .Or query => ".Or(" ++ query.value ++ ")"
  | .Follow reusable => ".Follow(" ++ reusable.name ++ ")"
  | .FollowR reusable => ".FollowR(" ++ reusable.name ++ ")"

/-- `parse_traversals` from `src/path.rs` (lines 569-614): the loop pushes each
traversal token onto an accumulator string, left to right. -/
def parse_traversals (traversals : List Traversal) : String :=
  match traversals with
  | [] => ""
  | traversal :: rest => traversal_token traversal ++ parse_traversals rest

/-- `parse_final` from `src/path.rs` (lines 616-627). -/
def parse_final (_final : Final) : String :=
  match _final with
  | .Undefined => ""
  | .All => ".All()"
  | .GetLimit n => ".GetLimit(" ++ toString n ++ ")"
  | .ToArray => ".ToArray()"
  | .ToValue => ".ToValue()"
  | .TagArray => ".TagArray()"
  | .TagValue => ".TagValue()"

/-- `Vertex::compile_route` from `src/path.rs` (lines 462-464 and 494-506). -/
def Vertex.compile_route (start : NodeSelector) (traversals : List Traversal) :
    Option CompiledRoute :=
  some { pfix := parse_pfix traversals
       , value := parse_start start ++ parse_traversals traversals }

/-- `Vertex::compile_query` from `src/path.rs` (lines 458-460 and 508-538):
the final token is appended only when the final is not `Undefined`, and the
expectation is fixed by the final operator. -/
def Vertex.compile_query (start : NodeSelector) (traversals : List Traversal)
    (_final : Final) : Option CompiledQuery :=
  some { pfix := parse_pfix traversals
       , value := parse_start start ++ parse_traversals traversals ++
           (match _final with
            | .Undefined => ""
            | f => parse_final f)
       , expectation :=
           match _final with
           | .Undefined => .Unknown
           | .All => .NodeSequence
           | .GetLimit _ => .NodeSequence
           | .ToArray => .NameSequence
           | .ToValue => .SingleNode
           | .TagArray => .TagSequence
           | .TagValue => .SingleTag }

/-- `Morphism::compile_reuse` from `src/path.rs` (lines 382-384 and 437-446). -/
def Morphism.compile_reuse (name : String) (traversals : List Traversal) :
    Option CompiledReuse :=
  some { name := name
       , pfix := parse_pfix traversals
       , value := "g.M()" ++ parse_traversals traversals }

/-- `Trail::compile_path` from `src/path.rs` (lines 343-345 and 362-370). -/
def Trail.compile_path (traversals : List Traversal) : Option CompiledPath :=
  some { pfix := parse_pfix traversals
       , value := parse_traversals traversals }

/-- `impl Add<CompiledPath, CompiledPath> for CompiledPath` from `src/path.rs`
(lines 319-325): the right operand pfix goes first, the values concatenate
left to right. -/
def CompiledPath.add (self rhs : CompiledPath) : CompiledPath :=
  { pfix := rhs.pfix ++ self.pfix, value := self.value ++ rhs.value }

/-- `impl Add<CompiledPath, CompiledRoute> for CompiledRoute` from
`src/path.rs` (lines 327-333). -/
def CompiledRoute.add (self : CompiledRoute) (rhs : CompiledPath) : CompiledRoute :=
  { pfix := rhs.pfix ++ self.pfix, value := self.value ++ rhs.value }

/-- The variants of the external `serialize::json::DecoderError` that the
decoding walk in `src/graph.rs` can surface, modelled at the boundary. -/
inductive DecoderError where
  | ParseError (msg : String) : DecoderError
  | ExpectedError (expected found : String) : DecoderError
  | MissingFieldError (name : String) : DecoderError
  | ApplicationError (msg : String) : DecoderError
deriving DecidableEq

/-- `RequestError` from `src/errors.rs` (lines 11-22); the external payloads
(url parse errors, http errors, io errors) are modelled as strings. -/
inductive RequestError where
  | InvalidUrl (err url : String) : RequestError
  | MalformedRequest (err url : String) : RequestError
  | RequestIoFailed (err path : String) : RequestError
  | RequestFailed (err path : String) : RequestError
  | DecodingFailed (err : DecoderError) (src : String) : RequestError
  | ResponseParseFailed : RequestError
  | QueryNotFinalized : RequestError
  | QueryCompilationFailed : RequestError
  | ExpectationNotSupported (expectation : Expectation) : RequestError
  | VagueExpectation : RequestError
deriving DecidableEq

/-- A JSON value, the shape the external tokenizer hands to the decoding
walk of `src/graph.rs`. -/
inductive Json where
  | null : Json
  | bool (b : Bool) : Json
  | num (n : Int) : Json
  | str (s : String) : Json
  | arr (items : List Json) : Json
  | obj (fields : List (String × Json)) : Json

/-- Field lookup in a JSON object, first match wins. -/
def Json.lookupField (fields : List (String × Json)) (name : String) : Option Json :=
  match fields with
  | [] => none
  | (key, value) :: rest =>
      if key = name then some value else Json.lookupField rest name

/-- `GraphNode` from `src/graph.rs`: a map from field name to field value,
modelled as an association list. -/
abbrev GraphNode := List (String × String)

/-- `GraphNodes` from `src/graph.rs`: the decoded node list. -/
abbrev GraphNodes := List GraphNode

/-- The `Decodable` walk for one `GraphNode` (`src/graph.rs` lines 199-214):
`read_map` over the entries, reading every value with `read_str`, so any
non-string value is a decoding error. -/
def GraphNode.decodeFields (fields : List (String × Json)) :
    Except DecoderError GraphNode :=
  match fields with
  | [] => .ok []
  | (key, .str value) :: rest =>
      match GraphNode.decodeFields rest with
      | .ok node => .ok ((key, value) :: node)
      | .error err => .error err
  | (_, _) :: _ => .error (.ExpectedError "String" "other")

/-- One `GraphNode` decoded from a JSON value: `read_map` requires an object. -/
def GraphNode.decode (json : Json) : Except DecoderError GraphNode :=
  match json with
  | .obj fields => GraphNode.decodeFields fields
  | _ => .error (.ExpectedError "Object" "other")

/-- The `read_seq` part of the `GraphNodes` walk: each element of the result
array is decoded as one `GraphNode`, in order. -/
def GraphNodes.decodeSeq (items : List Json) : Except DecoderError GraphNodes :=
  match items with
  | [] => .ok []
  | item :: rest =>
      match GraphNode.decode item with
      | .error err => .error err
      | .ok node =>
          match GraphNodes.decodeSeq rest with
          | .error err => .error err
          | .ok nodes => .ok (node :: nodes)

/-- The `Decodable` walk for `GraphNodes` (`src/graph.rs` lines 216-239):
`read_struct` requires a top-level object, `read_struct_field "result"` then
`read_option` yields the empty list when the field is null, and otherwise
`read_seq` decodes an array of field maps.  An absent `result` field is
handled through the external decoder, which (per the spec boundary, which
treats absent and null alike) reaches the same `None` branch of
`read_option`.  No other field of the envelope is inspected. -/
def GraphNodes.decode (json : Json) : Except DecoderError GraphNodes :=
  match json with
  | .obj fields =>
      match Json.lookupField fields "result" with
      | none => .ok []
      | some .null => .ok []
      | some (.arr items) => GraphNodes.decodeSeq items
      | some _ => .error (.ExpectedError "Array" "other")
  | _ => .error (.ExpectedError "Object" "other")

/-- `Graph::decode_nodes` from `src/graph.rs` (lines 185-196): UTF-8 decoding
of the response bytes (external `str::from_utf8`, passed as a parameter)
failing gives `ResponseParseFailed`; `json_decode` (external tokenizer `parse`
followed by the `Decodable` walk) failing gives `DecodingFailed` carrying the
offending text. -/
def Graph.decode_nodes (utf8 : List Nat → Option String)
    (parse : String → Option Json) (source : List Nat) :
    Except RequestError GraphNodes :=
  match utf8 source with
  | none => .error .ResponseParseFailed
  | some nodes_json =>
      match parse nodes_json with
      | none => .error (.DecodingFailed (.ParseError "json") nodes_json)
      | some json =>
          match GraphNodes.decode json with
          | .error err => .error (.DecodingFailed err nodes_json)
          | .ok nodes => .ok nodes

/-- Modelled from the spec: the `is_finalized` check that `Graph::find` in
`src/graph.rs` performs on its `Query` argument.  The `Query` trait revision
providing `is_finalized` is not part of the sources; per the spec a route
"becomes finalized exactly when a Finalization Operator is applied", i.e.
exactly when its final operator is not `Undefined`. -/
def Vertex.is_finalized (_final : Final) : Bool :=
  decide (_final ≠ Final.Undefined)

/-- Modelled from the spec: the request payload of a compiled query handed to
the transport — the spec says supported calls "concatenate `prefix` entries
and `body` into the request payload" (the repository tests likewise compare
`prefix + value`). -/
def CompiledQuery.request_payload (query : CompiledQuery) : String :=
  query.pfix ++ query.value

/-- `Graph::exec` / the request-then-decode half of `find` from
`src/graph.rs` (lines 89-94): perform the request over the transport
collaborator and decode the response bytes. -/
def Graph.find_by (transport : String → Except RequestError (List Nat))
    (utf8 : List Nat → Option String) (parse : String → Option Json)
    (query : String) : Except RequestError GraphNodes :=
  match transport query with
  | .error err => .error err
  | .ok body => Graph.decode_nodes utf8 parse body

/-- `Graph::find` from `src/graph.rs` (lines 71-78): an unfinalized query is
rejected with `QueryNotFinalized`; otherwise the query is compiled (which for
a `Vertex` always succeeds) and its payload is sent over the transport. -/
def Graph.find (transport : String → Except RequestError (List Nat))
    (utf8 : List Nat → Option String) (parse : String → Option Json)
    (start : NodeSelector) (traversals : List Traversal) (_final : Final) :
    Except RequestError GraphNodes :=
  if Vertex.is_finalized _final then
    match (Vertex.compile_query start traversals _final).map
        CompiledQuery.request_payload with
    | some compiled => Graph.find_by transport utf8 parse compiled
    | none => .error .QueryCompilationFailed
  else .error .QueryNotFinalized

/-- A transport stub that always reports a successful empty response body. -/
def stub_transport_ok (_query : String) : Except RequestError (List Nat) :=
  .ok []

/-- A transport stub that always fails with a transport-level error. -/
def stub_transport_err (_query : String) : Except RequestError (List Nat) :=
  .error (.RequestFailed "connection refused" "stub")

/-- A UTF-8 stub that decodes every byte sequence to a fixed text. -/
def stub_utf8_ok (_bytes : List Nat) : Option String :=
  some "stub response"

/-- A UTF-8 stub for byte sequences that are not valid UTF-8. -/
def stub_utf8_fail (_bytes : List Nat) : Option String :=
  none

/-- A JSON tokenizer stub that parses every text to the empty object. -/
def stub_parse_obj (_text : String) : Option Json :=
  some (.obj [])

/-- A JSON tokenizer stub that fails on every text. -/
def stub_parse_fail (_text : String) : Option Json :=
  none

/-!
Helper lemmas shared by the claim theorems below.
-/

/-- The hoisted declaration text of a traversal list splits over
concatenation: contributions are emitted strictly in traversal order. -/
theorem parse_pfix_append (xs ys : List Traversal) :
    parse_pfix (xs ++ ys) = parse_pfix xs ++ parse_pfix ys := by
  induction xs with
  | nil => simp [parse_pfix, String.empty_append]
  | cons t rest ih => simp [parse_pfix, ih, String.append_assoc]

/-- The body text of a traversal list splits over concatenation: wire tokens
are emitted strictly in traversal order. -/
theorem parse_traversals_append (xs ys : List Traversal) :
    parse_traversals (xs ++ ys) = parse_traversals xs ++ parse_traversals ys := by
  induction xs with
  | nil => simp [parse_traversals, String.empty_append]
  | cons t rest ih => simp [parse_traversals, ih, String.append_assoc]

/-- Decoding a result array yields exactly one node per array element. -/
theorem decodeSeq_length (items : List Json) (nodes : GraphNodes)
    (h : GraphNodes.decodeSeq items = .ok nodes) : nodes.length = items.length := by
  induction items generalizing nodes with
  | nil =>
      simp [GraphNodes.decodeSeq] at h
      simp [h.symm]
  | cons item rest ih =>
      simp only [GraphNodes.decodeSeq] at h
      cases hd : GraphNode.decode item with
      | error err => rw [hd] at h; exact absurd h (by simp)
      | ok node =>
          rw [hd] at h
          cases hr : GraphNodes.decodeSeq rest with
          | error err => rw [hr] at h; exact absurd h (by simp)
          | ok rest_nodes =>
              rw [hr] at h
              cases h
              simp [ih rest_nodes hr]

/-!
Claim theorems.
-/

/-- C1 (counterexample): the claim states that a route anchored at `AnyNode`
compiles to the body `"V()"`, but `parse_start` renders the anchor together
with the graph object, so the compiled body is `"g.V()"`, not `"V()"`. -/
theorem anchor_body_is_not_bare_V_token :
    (Vertex.compile_route .AnyNode []).map CompiledRoute.value ≠ some "V()"
    ∧ (Vertex.compile_route .AnyNode []).map CompiledRoute.value = some "g.V()" := by
  constructor
  · decide
  · decide

/-- C1 (amended): compiling an anchored route renders the anchor as the
`g.V(<node-args>)` token, where the node arguments are empty for `AnyNode`,
a single double-quoted identifier for `Node`, and a comma-joined
double-quoted list for `Nodes`: the bodies are `"g.V()"`, `"g.V(\"foo\")"`
and `"g.V(\"foo\",\"bar\")"` respectively. -/
theorem anchor_rendering_with_graph_object :
    (Vertex.compile_route .AnyNode []).map CompiledRoute.value = some "g.V()"
    ∧ (Vertex.compile_route (.Node "foo") []).map CompiledRoute.value
        = some "g.V(\"foo\")"
    ∧ (Vertex.compile_route (.Nodes ["foo", "bar"]) []).map CompiledRoute.value
        = some "g.V(\"foo\",\"bar\")" := by
  refine ⟨by decide, by decide, by decide⟩

/-- C3: the expectation of a compiled query is determined exactly by the
final operator used: `All` and `GetLimit` give `NodeSequence`, `ToArray`
gives `NameSequence`, `ToValue` gives `SingleNode`, `TagArray` gives
`TagSequence`, `TagValue` gives `SingleTag`, and the absence of an operator
(`Undefined`) gives `Unknown`. -/
theorem expectation_determined_by_final_operator (start : NodeSelector)
    (traversals : List Traversal) (n : Int) :
    (Vertex.compile_query start traversals .All).map CompiledQuery.expectation
        = some .NodeSequence
    ∧ (Vertex.compile_query start traversals (.GetLimit n)).map CompiledQuery.expectation
        = some .NodeSequence
    ∧ (Vertex.compile_query start traversals .ToArray).map CompiledQuery.expectation
        = some .NameSequence
    ∧ (Vertex.compile_query start traversals .ToValue).map CompiledQuery.expectation
        = some .SingleNode
    ∧ (Vertex.compile_query start traversals .TagArray).map CompiledQuery.expectation
        = some .TagSequence
    ∧ (Vertex.compile_query start traversals .TagValue).map CompiledQuery.expectation
        = some .SingleTag
    ∧ (Vertex.compile_query start traversals .Undefined).map CompiledQuery.expectation
        = some .Unknown :=
  ⟨rfl, rfl, rfl, rfl, rfl, rfl, rfl⟩

/-- C7 (counterexample): the claim states that `GetLimit(0)` and
`GetLimit(-1)` fail with `InvalidArgument` at call time; in fact no
validation exists anywhere (nor does an `InvalidArgument` error), and both
calls compile successfully to finalized `NodeSequence` queries carrying the
non-positive limit on the wire. -/
theorem get_limit_zero_compiles_without_error :
    Vertex.compile_query .AnyNode [] (.GetLimit 0)
      = some { pfix := "", value := "g.V().GetLimit(0)", expectation := .NodeSequence }
    ∧ Vertex.compile_query .AnyNode [] (.GetLimit (-1))
      = some { pfix := "", value := "g.V().GetLimit(-1)", expectation := .NodeSequence } := by
  refine ⟨by decide, by decide⟩

/-- C7 (amended): `GetLimit(n)` is never validated: for every integer `n`,
including zero and negative values, the query compiles successfully, is
finalized with expectation `NodeSequence`, and the wire token
`.GetLimit(<n>)` is appended to the body. -/
theorem get_limit_always_finalizes (start : NodeSelector)
    (traversals : List Traversal) (n : Int) :
    Vertex.compile_query start traversals (.GetLimit n)
      = some { pfix := parse_pfix traversals
             , value := parse_start start ++ parse_traversals traversals ++
                 (".GetLimit(" ++ toString n ++ ")")
             , expectation := .NodeSequence } :=
  rfl

/-- C8 (counterexample): the claim states that an empty multi-value selector
is either rejected with `InvalidSelector` or rendered as an explicit
empty-list wire token, and never silently rendered like another selector
shape.  In fact `Nodes([])` is not rejected (compilation has no error
channel for selectors and succeeds) and renders as `g.V("")` — exactly the
rendering of the different selector `Node("")`. -/
theorem empty_nodes_list_renders_like_empty_name :
    Vertex.compile_route (.Nodes []) []
      = some { pfix := "", value := "g.V(\"\")" }
    ∧ parse_start (.Nodes []) = parse_start (.Node "") := by
  refine ⟨by decide, by decide⟩

/-- C8 (amended): empty multi-value selectors are accepted without any
rejection and compile to a single empty double-quoted identifier inside the
shape of the corresponding variant, indistinguishable from the same variant
applied to the one-element list containing the empty string: `Nodes([])`
renders as `g.V("")` like `Nodes([""])` (and like `Node("")`),
`Predicates([])` renders as `[""]` like `Predicates([""])`, and `Tags([])`
renders as `null,[""]` like `Tags([""])`. -/
theorem empty_multivalue_selectors_render_quoted_empty :
    parse_start (.Nodes []) = "g.V(\"\")"
    ∧ parse_start (.Nodes []) = parse_start (.Nodes [""])
    ∧ parse_start (.Nodes []) = parse_start (.Node "")
    ∧ parse_predicates_and_tags (.Predicates []) .AnyTag = "[\"\"]"
    ∧ parse_predicates_and_tags (.Predicates []) .AnyTag
        = parse_predicates_and_tags (.Predicates [""]) .AnyTag
    ∧ parse_predicates_and_tags .AnyPredicate (.Tags []) = "null,[\"\"]"
    ∧ parse_predicates_and_tags .AnyPredicate (.Tags [])
        = parse_predicates_and_tags .AnyPredicate (.Tags [""]) := by
  refine ⟨by decide, by decide, by decide, by decide, by decide, by decide, by decide⟩

/-- C10: concatenating a compiled route with a compiled path (and likewise
two compiled paths) concatenates the values left to right but places the
right operand hoisted declarations before the left operand ones. -/
theorem add_concatenates_values_and_swaps_pfixes (r : CompiledRoute)
    (p p1 p2 : CompiledPath) :
    (CompiledRoute.add r p).value = r.value ++ p.value
    ∧ (CompiledRoute.add r p).pfix = p.pfix ++ r.pfix
    ∧ (CompiledPath.add p1 p2).value = p1.value ++ p2.value
    ∧ (CompiledPath.add p1 p2).pfix = p2.pfix ++ p1.pfix :=
  ⟨rfl, rfl, rfl, rfl⟩

/-- C2: when a builder splices a named reusable via `Follow` or `FollowR`,
the compiled query hoisted-declaration text contains, in splice position,
the reusable own transitive declarations followed by its
`var <name> = <body>;` declaration; and the compiled body refers to the
reusable only through the `.Follow(<name>)` / `.FollowR(<name>)` token,
never by inline expansion of its body text.  Since the request payload is
the declaration text followed by the body, every body reference to the name
comes after the declaration. -/
theorem follow_splice_hoists_declaration_and_references_by_name
    (start : NodeSelector) (ts1 ts2 : List Traversal) (m : CompiledReuse)
    (_final : Final) :
    (Vertex.compile_query start (ts1 ++ .Follow m :: ts2) _final).map CompiledQuery.pfix
      = some (parse_pfix ts1 ++ (m.pfix ++ (reuse_decl m ++ parse_pfix ts2)))
    ∧ parse_traversals (ts1 ++ .Follow m :: ts2)
      = parse_traversals ts1 ++ (".Follow(" ++ (m.name ++ (")" ++ parse_traversals ts2)))
    ∧ (Vertex.compile_query start (ts1 ++ .FollowR m :: ts2) _final).map CompiledQuery.pfix
      = some (parse_pfix ts1 ++ (m.pfix ++ (reuse_decl m ++ parse_pfix ts2)))
    ∧ parse_traversals (ts1 ++ .FollowR m :: ts2)
      = parse_traversals ts1 ++ (".FollowR(" ++ (m.name ++ (")" ++ parse_traversals ts2))) := by
  refine ⟨?_, ?_, ?_, ?_⟩ <;>
    simp [Vertex.compile_query, parse_pfix_append, parse_traversals_append,
      parse_pfix, parse_traversals, pfix_of, traversal_token, reuse_decl,
      String.append_assoc]

/-- C5 (counterexample): the claim states that a step whose predicate is a
nested compiled route merges the nested route transitive declarations into
the consuming builder declarations.  In fact `parse_prefix` ignores
`Out`/`In`/`Both`/`Has` steps entirely: consuming a route that carries the
declaration `var m = g.M();` through `Out` yields a compiled route whose
declaration text is empty — the nested declarations are dropped (while the
nested body is substituted into the step argument). -/
theorem from_route_pfix_dropped :
    (Vertex.compile_route (.Node "x")
        [.Out (.FromRoute { pfix := "var m = g.M();", value := "g.V().Follow(m)" }) .AnyTag]).map
        CompiledRoute.pfix
      = some ""
    ∧ (Vertex.compile_route (.Node "x")
        [.Out (.FromRoute { pfix := "var m = g.M();", value := "g.V().Follow(m)" }) .AnyTag]).map
        CompiledRoute.value
      = some "g.V(\"x\").Out(g.V().Follow(m))" := by
  refine ⟨by decide, by decide⟩

/-- C5 (amended): for `Out`/`In`/`Both`/`Has` steps whose predicate selector
is a nested compiled route, the rendered step argument substitutes the
nested route compiled body text unquoted; but the nested route transitive
declarations are NOT merged into the consuming builder declarations —
`parse_prefix` contributes nothing for these step kinds, whatever their
selectors, so the consuming declaration text skips straight from the steps
before to the steps after. -/
theorem from_route_substitutes_body_but_drops_pfix (route : CompiledRoute)
    (tag : String) (tags : List String) (node : String)
    (predicates : PredicateSelector) (tsel : TagSelector) (nodes : NodeSelector)
    (ts1 ts2 : List Traversal) :
    parse_predicates_and_tags (.FromRoute route) .AnyTag = route.value
    ∧ parse_predicates_and_tags (.FromRoute route) (.Tag tag)
        = route.value ++ (", \"" ++ (tag ++ "\""))
    ∧ parse_predicates_and_tags (.FromRoute route) (.Tags tags)
        = route.value ++ (", [\"" ++ (String.intercalate "\",\"" tags ++ "\"]"))
    ∧ parse_predicates_and_nodes (.FromRoute route) .AnyNode = route.value
    ∧ parse_predicates_and_nodes (.FromRoute route) (.Node node)
        = route.value ++ (",\"" ++ (node ++ "\""))
    ∧ pfix_of (.Out predicates tsel) = ""
    ∧ pfix_of (.In predicates tsel) = ""
    ∧ pfix_of (.Both predicates tsel) = ""
    ∧ pfix_of (.Has predicates nodes) = ""
    ∧ parse_pfix (ts1 ++ .Out (.FromRoute route) tsel :: ts2)
        = parse_pfix ts1 ++ parse_pfix ts2 := by
  refine ⟨?_, ?_, ?_, ?_, ?_, ?_, ?_, ?_, ?_, ?_⟩ <;>
    simp [parse_predicates_and_tags, parse_predicates_and_nodes, pfix_of,
      parse_pfix_append, parse_pfix, String.append_assoc]

/-- C6: hoisted declarations are not deduplicated: splicing the same named
reusable twice through `Follow` emits its declaration text twice, once per
splice, and likewise joining the same compiled route twice through
`And`/`Or` (or `Intersect`/`Union`, which contribute identically) re-emits
that route declaration text at every join. -/
theorem spliced_declarations_not_deduplicated (ts1 ts2 ts3 : List Traversal)
    (m : CompiledReuse) (q : CompiledRoute) :
    parse_pfix (ts1 ++ .Follow m :: (ts2 ++ .Follow m :: ts3))
      = parse_pfix ts1 ++ (m.pfix ++ (reuse_decl m ++
          (parse_pfix ts2 ++ (m.pfix ++ (reuse_decl m ++ parse_pfix ts3)))))
    ∧ parse_pfix (ts1 ++ .And q :: (ts2 ++ .Or q :: ts3))
      = parse_pfix ts1 ++ (q.pfix ++ (parse_pfix ts2 ++ (q.pfix ++ parse_pfix ts3)))
    ∧ parse_pfix (ts1 ++ .Intersect q :: (ts2 ++ .Union q :: ts3))
      = parse_pfix ts1 ++ (q.pfix ++ (parse_pfix ts2 ++ (q.pfix ++ parse_pfix ts3))) := by
  refine ⟨?_, ?_, ?_⟩ <;>
    simp [parse_pfix_append, parse_pfix, pfix_of, reuse_decl, String.append_assoc]

/-- C4 (counterexample): the claim states that a compiled query whose
expectation is not `NodeSequence` fails fast with the unsupported-expectation
error before any transport call.  In fact `Graph::find` performs no
expectation check at all: a `ToArray` query (expectation `NameSequence`) is
sent over the transport and its round trip completes — with a successful
transport the call decodes and succeeds, and with a failing transport the
transport error itself surfaces, so `ExpectationNotSupported` is never
produced and a network request is attempted. -/
theorem find_executes_unsupported_expectation :
    Graph.find stub_transport_ok stub_utf8_ok stub_parse_obj .AnyNode [] .ToArray
      = .ok []
    ∧ (Vertex.compile_query .AnyNode [] .ToArray).map CompiledQuery.expectation
      = some .NameSequence
    ∧ Graph.find stub_transport_err stub_utf8_ok stub_parse_obj .AnyNode [] .ToArray
      = .error (.RequestFailed "connection refused" "stub") := by
  refine ⟨rfl, rfl, rfl⟩

/-- C4 (amended): `Graph::find` gates only on finalization: an unfinalized
query (final operator absent, expectation `Unknown`) fails with
`QueryNotFinalized` for every transport, so before any network request; but
every finalized query, whatever its expectation, is handed to the transport
via `find_by` with its compiled payload — no expectation check is performed
and `ExpectationNotSupported` is never returned by `find`. -/
theorem find_gates_only_on_finalization
    (transport : String → Except RequestError (List Nat))
    (utf8 : List Nat → Option String) (parse : String → Option Json)
    (start : NodeSelector) (traversals : List Traversal) (n : Int) :
    Graph.find transport utf8 parse start traversals .Undefined
      = .error .QueryNotFinalized
    ∧ (Vertex.compile_query start traversals .Undefined).map CompiledQuery.expectation
      = some .Unknown
    ∧ Graph.find transport utf8 parse start traversals .All
      = Graph.find_by transport utf8 parse
          (parse_pfix traversals ++ (parse_start start ++ parse_traversals traversals ++ ".All()"))
    ∧ Graph.find transport utf8 parse start traversals (.GetLimit n)
      = Graph.find_by transport utf8 parse
          (parse_pfix traversals ++ (parse_start start ++ parse_traversals traversals ++
            (".GetLimit(" ++ toString n ++ ")")))
    ∧ Graph.find transport utf8 parse start traversals .ToArray
      = Graph.find_by transport utf8 parse
          (parse_pfix traversals ++ (parse_start start ++ parse_traversals traversals ++ ".ToArray()"))
    ∧ Graph.find transport utf8 parse start traversals .ToValue
      = Graph.find_by transport utf8 parse
          (parse_pfix traversals ++ (parse_start start ++ parse_traversals traversals ++ ".ToValue()"))
    ∧ Graph.find transport utf8 parse start traversals .TagArray
      = Graph.find_by transport utf8 parse
          (parse_pfix traversals ++ (parse_start start ++ parse_traversals traversals ++ ".TagArray()"))
    ∧ Graph.find transport utf8 parse start traversals .TagValue
      = Graph.find_by transport utf8 parse
          (parse_pfix traversals ++ (parse_start start ++ parse_traversals traversals ++ ".TagValue()")) :=
  ⟨rfl, rfl, rfl, rfl, rfl, rfl, rfl, rfl⟩

/-- C9 (counterexample): the claim states that an envelope carrying a
non-null `error` field is a hard failure regardless of the `result` field.
In fact the decoding walk never inspects the `error` field: an envelope with
`error` set and a well-formed `result` array decodes successfully to its
nodes, and one with `error` set and no `result` decodes to the empty list. -/
theorem error_field_ignored_by_decoder :
    GraphNodes.decode
        (.obj [("error", .str "boom"), ("result", .arr [.obj [("id", .str "A")]])])
      = .ok [[("id", "A")]]
    ∧ GraphNodes.decode (.obj [("error", .str "boom")]) = .ok [] := by
  refine ⟨rfl, rfl⟩

/-- C9 (amended): response decoding behaves as follows — non-UTF-8 bytes
fail with `ResponseParseFailed`; an envelope whose `result` field is absent
or null decodes to the empty node list; a `result` array decodes to one node
per element of the array; and the `error` field is ignored entirely (its
presence changes nothing), rather than being a hard failure. -/
theorem decode_nodes_envelope_walk (utf8 : List Nat → Option String)
    (parse : String → Option Json) (src : List Nat)
    (fields : List (String × Json)) (err : Json) (items : List Json)
    (nodes : GraphNodes) :
    (utf8 src = none → Graph.decode_nodes utf8 parse src = .error .ResponseParseFailed)
    ∧ (Json.lookupField fields "result" = none →
        GraphNodes.decode (.obj fields) = .ok [])
    ∧ (Json.lookupField fields "result" = some .null →
        GraphNodes.decode (.obj fields) = .ok [])
    ∧ (Json.lookupField fields "result" = some (.arr items) →
        GraphNodes.decode (.obj fields) = GraphNodes.decodeSeq items)
    ∧ (GraphNodes.decodeSeq items = .ok nodes → nodes.length = items.length)
    ∧ GraphNodes.decode (.obj (("error", err) :: fields))
        = GraphNodes.decode (.obj fields) := by
  refine ⟨?_, ?_, ?_, ?_, ?_, ?_⟩
  · intro h
    simp [Graph.decode_nodes, h]
  · intro h
    simp [GraphNodes.decode, h]
  · intro h
    simp [GraphNodes.decode, h]
  · intro h
    simp [GraphNodes.decode, h]
  · exact decodeSeq_length items nodes
  · have h : Json.lookupField (("error", err) :: fields) "result"
        = Json.lookupField fields "result" := by
      rw [Json.lookupField]
      exact if_neg (by decide)
    simp [GraphNodes.decode, h]

/-- Witness for the amended C9 theorem at concrete inputs: an invalid byte
sequence, an envelope with only an `error` field, a null `result`, a
one-element `result` array, and the error-field invariance. -/
theorem decode_nodes_envelope_walk_witness :
    Graph.decode_nodes stub_utf8_fail stub_parse_fail [255]
      = .error .ResponseParseFailed
    ∧ GraphNodes.decode (.obj [("error", .str "boom")]) = .ok []
    ∧ GraphNodes.decode (.obj [("result", .null)]) = .ok []
    ∧ GraphNodes.decode (.obj [("result", .arr [.obj [("id", .str "A")]])])
        = GraphNodes.decodeSeq [.obj [("id", .str "A")]]
    ∧ ([[("id", "A")]] : GraphNodes).length = [Json.obj [("id", .str "A")]].length
    ∧ GraphNodes.decode (.obj (("error", .str "boom") :: [("result", .null)]))
        = GraphNodes.decode (.obj [("result", .null)]) := by
  refine ⟨?_, ?_, ?_, ?_, ?_, ?_⟩
  · exact (decode_nodes_envelope_walk stub_utf8_fail stub_parse_fail [255]
      [] .null [] []).1 rfl
  · exact (decode_nodes_envelope_walk stub_utf8_fail stub_parse_fail []
      [("error", .str "boom")] .null [] []).2.1 rfl
  · exact (decode_nodes_envelope_walk stub_utf8_fail stub_parse_fail []
      [("result", .null)] .null [] []).2.2.1 rfl
  · exact (decode_nodes_envelope_walk stub_utf8_fail stub_parse_fail []
      [("result", .arr [.obj [("id", .str "A")]])] .null
      [Json.obj [("id", .str "A")]] []).2.2.2.1 rfl
  · exact (decode_nodes_envelope_walk stub_utf8_fail stub_parse_fail []
      [] .null [Json.obj [("id", .str "A")]] [[("id", "A")]]).2.2.2.2.1 rfl
  · exact (decode_nodes_envelope_walk stub_utf8_fail stub_parse_fail []
      [("result", .null)] (.str "boom") [] []).2.2.2.2.2

end Cayley
